import Mathlib

/-!
Verification development for the `numelise_check` consent-audit crawler.

The definitions below are a shallow embedding of the Python source under
`src/consentcrawl/`.  Pure string/list logic is translated function by
function; browser (DOM) interactions are abstracted into explicit
environment records whose fields stand for the outcome of each external
call, so that the control flow of the Python code can be reproduced
exactly as an executable Lean function.
-/

namespace ConsentCrawl

/-! ## Python string primitives

`pyContains hay pat` models the Python expression `pat in hay` on strings
(substring test).  `pyLower` models `str.lower` for the ASCII range (all
inputs considered here contain no non-ASCII uppercase letters, so the two
agree on them).  `pyStrip` models `str.strip`.
-/

def pyContainsAux (pat : List Char) : List Char → Bool
  | [] => List.isPrefixOf pat []
  | c :: rest => List.isPrefixOf pat (c :: rest) || pyContainsAux pat rest

def pyContains (hay pat : String) : Bool :=
  pyContainsAux pat.data hay.data

def pyLower (s : String) : String :=
  String.mk (s.data.map Char.toLower)

def pyStrip (s : String) : String :=
  String.mk
    (((s.data.dropWhile Char.isWhitespace).reverse.dropWhile Char.isWhitespace).reverse)

/-- Python `str.split(c)` for a single-character separator (in particular
`split("\n")`, whose result on `""` is `[""]`). -/
def splitOnCharAux (c : Char) : List Char → List (List Char)
  | [] => [[]]
  | x :: xs =>
    let r := splitOnCharAux c xs
    if x = c then [] :: r
    else
      match r with
      | [] => [[x]]
      | hd :: tl => (x :: hd) :: tl

def pySplit (s : String) (c : Char) : List String :=
  (splitOnCharAux c s.data).map String.mk

/-- Python truthiness of an `Optional[str]`: `None` and `""` are falsy. -/
def optTruthy : Option String → Bool
  | none => false
  | some s => s ≠ ""

/-! ## Button role classification

Embedding of `classify_button_role` from
`src/consentcrawl/banner_detector.py` (lines 1074-1127).  The caller
(`extract_banner_buttons`) passes `text.strip().lower()` and the lowered
aria-label.  In the Python source a matched accept pattern only returns
`accept_all` when neither "necessary" nor "essential" occurs in the
combined text; otherwise control falls through to the reject check, which
the `if`-chain below reproduces.
-/

def accept_patterns : List String :=
  ["accept all", "accept", "agree", "allow all", "allow",
   "accepter tout", "accepter", "j\x27accepte", "tout accepter",
   "akzeptieren", "alle akzeptieren", "aceptar"]

def reject_patterns : List String :=
  ["reject all", "reject", "refuse", "deny",
   "refuser tout", "refuser", "tout refuser",
   "ablehnen", "alles ablehnen", "rechazar"]

def settings_patterns : List String :=
  ["setting", "manage", "customize", "configure", "preference", "choice", "choose", "option",
   "paramétrer", "gérer", "personnaliser", "configurer", "préférence",
   "einstellung", "verwalten", "anpassen",
   "configurar", "gestionar", "set up", "partners", "partenaires"]

def info_patterns : List String :=
  ["more info", "learn more", "privacy policy", "cookie policy", "details",
   "plus d\x27info", "en savoir plus", "politique",
   "mehr erfahren", "datenschutz",
   "más información", "política"]

def classify_button_role (text aria_label : String) : String :=
  let combined := text ++ " " ++ aria_label
  if accept_patterns.any (fun p => pyContains combined p)
      && !pyContains combined "necessary" && !pyContains combined "essential" then
    "accept_all"
  else if reject_patterns.any (fun p => pyContains combined p) then
    "reject_all"
  else if settings_patterns.any (fun p => pyContains combined p) then
    "settings"
  else if info_patterns.any (fun p => pyContains combined p) then
    "info"
  else
    "unknown"

/-! ## Data model (`src/consentcrawl/audit_schemas.py`)

Statuses and roles are strings, as in the Python source.  `confidence`
values are modelled as exact rationals (the Python floats involved are
small decimal literals).
-/

structure ButtonInfo where
  text : String
  role : String
  selector : String
  aria_label : Option String := none
  is_visible : Bool := true
deriving DecidableEq, Repr

structure BannerInfo where
  detected : Bool
  cmp_type : Option String := none
  cmp_brand : Option String := none
  banner_html : Option String := none
  banner_text : Option String := none
  buttons : List ButtonInfo := []
  in_iframe : Bool := false
  in_shadow_dom : Bool := false
  iframe_src : Option String := none
  detection_method : String := "none"
deriving DecidableEq, Repr

structure CategoryInfo where
  name : String
  description : Option String := none
  default_enabled : Option Bool := none
  is_required : Bool := false
  has_toggle : Bool := false
deriving DecidableEq, Repr

structure VendorInfo where
  name : String
  privacy_policy_url : Option String := none
deriving DecidableEq, Repr

structure CookieDetail where
  name : String
  domain : Option String := none
  duration : Option String := none
deriving DecidableEq, Repr

/-! ## Banner detection (`src/consentcrawl/banner_detector.py`, `detect_banner`)

`detect_banner` runs a cascade of strategies, short-circuiting on the
first hit.  Every DOM interaction is abstracted into `DetectBannerEnv`:
each field records what the corresponding strategy would observe on the
page (with `none` standing both for "nothing found" and for an exception
swallowed inside that strategy, since the Python code catches exceptions
per strategy and continues).
-/

/-- Result of the YAML-driven CMP-specific strategy (`detect_cmp_banner` plus
`extract_banner_info`): the matched CMP descriptor, iframe context if the
match happened inside an iframe, and the extraction outcome (`none` when
`extract_banner_info` returned `None`). -/
structure CmpHit where
  cmp_id : String
  cmp_brand : Option String := none
  in_iframe : Bool := false
  iframe_src : Option String := none
  extraction : Option (String × String × List ButtonInfo) := none
deriving DecidableEq, Repr

structure ShadowHit where
  html : String
  text : String
deriving DecidableEq, Repr

structure DetectBannerEnv where
  /-- for each hardcoded detector name: `some buttons` when its modal is
  found and the ad-hoc button extraction yields `buttons`; `none` when the
  detector finds nothing or raises (caught per detector). -/
  hardcoded : String → Option (List ButtonInfo)
  cmp_specific : Option CmpHit := none
  generic : Option BannerInfo := none
  text_based : Option BannerInfo := none
  iframes : Option BannerInfo := none
  shadow : Option ShadowHit := none

structure AuditConfig where
  max_ui_depth : Int := 3
  support_shadow_dom : Bool := true
  support_nested_iframes : Bool := true
deriving DecidableEq, Repr

/-- The fixed list of hardcoded per-CMP detector names tried first by
`detect_banner` (lines 181-189 of `banner_detector.py`). -/
def hardcoded_detectors : List String :=
  ["sourcepoint", "onetrust", "didomi", "orejime", "trust_commander", "sfbx", "lemonde"]

def detect_banner (env : DetectBannerEnv) (config : AuditConfig) : Option BannerInfo :=
  match hardcoded_detectors.findSome?
      (fun n => (env.hardcoded n).map (fun btns => (n, btns))) with
  | some (n, btns) =>
      some { detected := true, cmp_type := some n,
             detection_method := "hardcoded_detector", in_iframe := false,
             buttons := btns }
  | none =>
  match env.cmp_specific with
  | some hit =>
      -- Python: a matched CMP locator whose extraction fails makes
      -- `detect_banner` return `None` without trying later strategies.
      match hit.extraction with
      | none => none
      | some (html, text, btns) =>
          some { detected := true, cmp_type := some hit.cmp_id,
                 cmp_brand := hit.cmp_brand,
                 banner_html := some html, banner_text := some text,
                 buttons := btns, detection_method := "cmp_specific",
                 in_iframe := hit.in_iframe,
                 iframe_src := if hit.in_iframe then hit.iframe_src else none }
  | none =>
  match env.generic with
  | some bi => some bi
  | none =>
  match env.text_based with
  | some bi => some bi
  | none =>
  match (if config.support_nested_iframes then env.iframes else none) with
  | some bi => some { bi with in_iframe := true }
  | none =>
  match (if config.support_shadow_dom then env.shadow else none) with
  | some sh =>
      some { detected := true, cmp_type := some "shadow_dom_custom",
             banner_html := some sh.html, banner_text := some sh.text,
             in_shadow_dom := true, detection_method := "shadow_dom",
             buttons := [] }
  | none =>
      some { detected := false }

/-! ## Audit orchestration (`src/consentcrawl/audit_crawl.py`, `audit_url`)

The navigation outcome and the results of `detect_banner` and
`attempt_detailed_extraction` are abstracted into `AuditEnv`.  The
returned `AuditRun` also records, as instrumentation mirroring the
control flow, whether banner detection was reached and whether detailed
extraction was attempted.  The outer catch-all `except` of `audit_url`
(which would convert an unexpected exception from any later step -
request post-processing, cookie read, context close - into status
`error`) lies outside this embedding: the stage calls it guards are
modelled as total, matching the navigation-timeout claim's "does not
take the error status at that point".
-/

inductive NavOutcome where
  | ok
  | timeout
  | err (msg : String)
deriving DecidableEq, Repr

/-- Outcome of `attempt_detailed_extraction` as observed by `audit_url`:
the call raised, returned `None`, or returned a data dict. -/
inductive DetailedOutcome where
  | raised (msg : String)
  | returnedNone
  | returnedData (categories : List CategoryInfo) (vendors : List VendorInfo)
      (cookies : List CookieDetail)
deriving DecidableEq, Repr

structure AuditEnv where
  nav : NavOutcome
  /-- the `BannerInfo` produced by `detect_banner` (a dataclass instance,
  hence always truthy in the Python `if banner_info:` test). -/
  banner : BannerInfo
  detailed : DetailedOutcome := .returnedNone
deriving DecidableEq, Repr

structure AuditResult where
  status : String := "pending"
  status_msg : String := ""
  banner_info : Option BannerInfo := none
  categories : List CategoryInfo := []
  vendors : List VendorInfo := []
  cookies : List CookieDetail := []
  ui_errors : List String := []
deriving DecidableEq, Repr

structure AuditRun where
  result : AuditResult
  banner_detection_attempted : Bool
  detailed_extraction_attempted : Bool
deriving DecidableEq, Repr

def audit_url (env : AuditEnv) (config : AuditConfig) : AuditRun :=
  match env.nav with
  | .err e =>
      -- hard navigation error: short-circuit to status "error"
      { result := { status := "error", status_msg := "Page load error: " ++ e },
        banner_detection_attempted := false,
        detailed_extraction_attempted := false }
  | _ =>
      -- `ok` and `timeout` both fall through to banner detection
      let bi := env.banner
      let r1 : AuditResult :=
        { status := "success_basic", status_msg := "Banner extracted successfully",
          banner_info := some bi }
      let settings_button := bi.buttons.any (fun b => b.role == "settings")
      if (settings_button || optTruthy bi.cmp_type) && 0 < config.max_ui_depth then
        match env.detailed with
        | .raised e =>
            { result := { r1 with ui_errors := ["Detailed extraction failed: " ++ e] },
              banner_detection_attempted := true,
              detailed_extraction_attempted := true }
        | .returnedNone =>
            let msg := "Detailed extraction skipped: Modal navigation failed"
            { result := { r1 with ui_errors := [msg] }
              banner_detection_attempted := true
              detailed_extraction_attempted := true }
        | .returnedData cs vs ks =>
            let r2 := { r1 with categories := cs, vendors := vs, cookies := ks }
            if 0 < cs.length ∨ 0 < vs.length then
              let r3 := { r2 with
                status := "success_detailed"
                status_msg := "Full detailed extraction completed" }
              { result := r3
                banner_detection_attempted := true
                detailed_extraction_attempted := true }
            else
              { result := r2
                banner_detection_attempted := true
                detailed_extraction_attempted := true }
      else
        { result := r1
          banner_detection_attempted := true
          detailed_extraction_attempted := false }

/-! ## Navigation state machine (`src/consentcrawl/navigation_state_machine.py`)

`NavigationStateMachine.execute_navigation_flow` selects a settings
button, runs an ordered sequence of click strategies
(`_try_click_strategy`), and validates the opened modal.  The DOM is
abstracted into `NavEnv`:

* `click sel i` is the combined outcome of the `i`-th click attempt with
  selector `sel` inside `_try_click_strategy`: the click succeeded and
  `_detect_modal` found a modal (`modalFound`); the click succeeded but no
  modal was detected (`noModal`); a `PlaywrightTimeoutError` was raised
  (`timeoutErr`); some other exception was raised (`otherErr`).
* `pattern_count p` is the result of `page.locator(p).count()` for a
  fallback pattern (`none` when that call raised).
* `modal_ready` is the result of `_validate_modal_ready`.

Python builds its text-based selectors with embedded single quotes
(for example `button:has-text(...)`); the quoting is dropped here, the
selector strings being opaque keys of the environment.  Attempt
durations (wall-clock) are not modelled.
-/

inductive NavigationState where
  | banner_detected
  | modal_opening
  | modal_ready
  | extraction_complete
  | failed
deriving DecidableEq, Repr

def NavigationState.value : NavigationState → String
  | .banner_detected => "banner_detected"
  | .modal_opening => "modal_opening"
  | .modal_ready => "modal_ready"
  | .extraction_complete => "extraction_complete"
  | .failed => "failed"

structure NavigationAttempt where
  strategy : String
  success : Bool
  error_msg : Option String := none
deriving DecidableEq, Repr

structure NavigationReport where
  initial_state : NavigationState
  final_state : NavigationState
  attempts : List NavigationAttempt := []
  transitions : List String := []
  errors : List String := []
deriving DecidableEq, Repr

inductive ClickOutcome where
  | modalFound
  | noModal
  | timeoutErr (msg : String)
  | otherErr (msg : String)
deriving DecidableEq, Repr

structure NavEnv where
  click : String → Nat → ClickOutcome
  pattern_count : String → Option Nat
  modal_ready : Bool

/-- One run of the retry loop of `_try_click_strategy` (lines 359-469).
`fuel` is the number of remaining attempts (`max_retries - i`); the
current attempt is the last one exactly when `fuel = 1`.  An attempt
record is appended only on success (`modalFound`), on a timeout at the
last attempt, or on a non-timeout exception (which also breaks the
loop); a click that succeeds without a detectable modal leaves no
record and simply retries. -/
def try_click_go (env : NavEnv) (name sel : String) :
    Nat → Nat → Option Unit × List NavigationAttempt
  | 0, _ => (none, [])
  | fuel + 1, i =>
    match env.click sel i with
    | .modalFound => (some (), [{ strategy := name, success := true }])
    | .noModal => try_click_go env name sel fuel (i + 1)
    | .timeoutErr m =>
        if fuel = 0 then
          (none, [{ strategy := name, success := false
                    error_msg := some ("Timeout: " ++ m) }])
        else
          try_click_go env name sel fuel (i + 1)
    | .otherErr m =>
        (none, [{ strategy := name, success := false, error_msg := some m }])

def try_click_strategy (env : NavEnv) (name sel : String) (max_retries : Nat) :
    Option Unit × List NavigationAttempt :=
  try_click_go env name sel max_retries 0

/-- The common settings-button text/aria patterns tried as strategy 6
(`common_patterns`, lines 330-339; Python quoting dropped). -/
def common_patterns : List String :=
  ["button:has-text(manage options):visible",
   "button:has-text(settings):visible",
   "button:has-text(customize):visible",
   "[role=button]:has-text(manage):visible",
   "[aria-label*=manage i]:visible",
   "[aria-label*=settings i]:visible",
   "[aria-label*=option i]:visible",
   ".sp_choice_type_12:visible"]

/-- Ordered strategy list `(name, selector, max_retries)` built by
`_attempt_modal_opening` for a given settings button: strategies 2-5 are
skipped when the button has no aria-label / empty text, and each
fallback pattern is tried (once) only when its `count()` succeeds and is
positive. -/
def strategy_list (env : NavEnv) (btn : ButtonInfo) : List (String × String × Nat) :=
  [("direct_selector", btn.selector, 3)]
  ++ (if optTruthy btn.aria_label then
        [("aria_label", "[aria-label=" ++ btn.aria_label.getD "" ++ "]", 3)]
      else [])
  ++ (if btn.text ≠ "" then
        [("button_text", "button:has-text(" ++ btn.text ++ ")", 3),
         ("role_button_text", "[role=button]:has-text(" ++ btn.text ++ ")", 3),
         ("generic_text", ":has-text(" ++ btn.text ++ ")", 3)]
      else [])
  ++ ((common_patterns.filter
        (fun p => match env.pattern_count p with
                  | some n => decide (0 < n)
                  | none => false)).map
      (fun p => ("fallback_pattern", p, 1)))

/-- Run the strategies in order, short-circuiting at the first one that
produces a modal; returns the outcome, the concatenated attempt records,
and the names of the strategies that were tried. -/
def run_strategies (env : NavEnv) :
    List (String × String × Nat) → Option Unit × List NavigationAttempt × List String
  | [] => (none, [], [])
  | (name, sel, mr) :: rest =>
    match try_click_strategy env name sel mr with
    | (some _, atts) => (some (), atts, [name])
    | (none, atts) =>
      let (res, atts2, tried) := run_strategies env rest
      (res, atts ++ atts2, name :: tried)

/-- Selection of the button to click (lines 262-279): the first button
with role `settings`, else the first with role `info`. -/
def select_settings_button (banner : BannerInfo) : Option ButtonInfo :=
  match banner.buttons.find? (fun b => b.role == "settings") with
  | some b => some b
  | none => banner.buttons.find? (fun b => b.role == "info")

/-- Instrumented result of `execute_navigation_flow`: the modal handle is
abstracted to `Unit`, and the names of the tried strategies are recorded
alongside the report. -/
structure NavRun where
  modal : Option Unit
  report : NavigationReport
  tried_strategies : List String
deriving Repr

def transition (fr tgt : NavigationState) : String :=
  fr.value ++ " -> " ++ tgt.value

def execute_navigation_flow (env : NavEnv) (banner : BannerInfo) : NavRun :=
  -- `_attempt_modal_opening` first transitions to MODAL_OPENING.
  let t1 := [transition .banner_detected .modal_opening]
  match select_settings_button banner with
  | none =>
      -- no candidate button: record the error, no click attempted; the
      -- flow then transitions to FAILED.
      { modal := none
        report := { initial_state := .banner_detected, final_state := .failed
                    attempts := []
                    transitions := t1 ++ [transition .modal_opening .failed]
                    errors := ["No settings button found in banner",
                               "Modal opening failed after all strategies"] }
        tried_strategies := [] }
  | some btn =>
      match run_strategies env (strategy_list env btn) with
      | (none, atts, tried) =>
          { modal := none
            report := { initial_state := .banner_detected, final_state := .failed
                        attempts := atts
                        transitions := t1 ++ [transition .modal_opening .failed]
                        errors := ["Modal opening failed after all strategies"] }
            tried_strategies := tried }
      | (some _, atts, tried) =>
          if env.modal_ready then
            { modal := some ()
              report := { initial_state := .banner_detected
                          final_state := .modal_ready
                          attempts := atts
                          transitions := t1 ++ [transition .modal_opening .modal_ready]
                          errors := [] }
              tried_strategies := tried }
          else
            { modal := none
              report := { initial_state := .banner_detected, final_state := .failed
                          attempts := atts
                          transitions := t1 ++ [transition .modal_opening .failed]
                          errors := ["Modal not ready after opening"] }
              tried_strategies := tried }

/-! ## Section discovery (`src/consentcrawl/section_discovery.py`)

Embedding of the merge/activate/validate pipeline of
`SectionDiscoverer.discover_all_sections`.  The three discovery tiers are
DOM scans; their outputs (`List DiscoveredSection`) are inputs here.  The
open `metadata` dict of the Python dataclass is modelled by the fields it
actually carries in this pipeline: the button text used for overlap
testing (`md_button_text`; tier-1 tab sections store their text under the
key `tab_text`, which `_sections_overlap` does not read, so such sections
have `md_button_text = ""`), the contributing-method list written by the
merge, and the lazy-loading / activation-error markers.
-/

inductive SectionType where
  | tab
  | accordion
  | list
  | nested_tab
  | modal_switch
  | unknown
deriving DecidableEq, Repr

inductive ContentType where
  | categories
  | vendors
  | cookies
  | purposes
  | partners
  | unknown
deriving DecidableEq, Repr

inductive DiscoveryMethod where
  | aria_semantic
  | visual_pattern
  | yaml_fallback
  | hybrid
deriving DecidableEq, Repr

structure DiscoveredSection where
  section_type : SectionType
  content_type : ContentType
  locator : Option String
  activation_required : Bool
  activation_locator : Option String
  discovery_method : DiscoveryMethod
  confidence : Rat
  was_activated : Bool := false
  item_count_after_activation : Nat := 0
  contains_items : Bool := false
  md_button_text : String := ""
  md_merged_from : List DiscoveryMethod := []
  md_has_lazy_loading : Bool := false
  md_activation_error : Bool := false
deriving DecidableEq, Repr

structure SectionDiscoveryResult where
  sections : List DiscoveredSection := []
  categories_section : Option DiscoveredSection := none
  vendors_section : Option DiscoveredSection := none
  cookies_section : Option DiscoveredSection := none
  purposes_section : Option DiscoveredSection := none
  errors : List String := []
deriving DecidableEq, Repr

/-- Embedding of `_sections_overlap` (lines 976-1008): equal truthy
(non-`None`, non-empty) `activation_locator`s, or equal truthy
`locator`s, or equal non-empty lowercased/stripped `button_text`
metadata. -/
def sections_overlap (s1 s2 : DiscoveredSection) : Bool :=
  (optTruthy s1.activation_locator && optTruthy s2.activation_locator
    && s1.activation_locator == s2.activation_locator)
  || (optTruthy s1.locator && optTruthy s2.locator && s1.locator == s2.locator)
  || (let t1 := pyStrip (pyLower s1.md_button_text)
      let t2 := pyStrip (pyLower s2.md_button_text)
      t1 != "" && t2 != "" && t1 == t2)

/-- Embedding of the `method_priority` dict of `merge_discoveries`
(lines 954-958).  The Python dict has no entry for `HYBRID` (looking one
up would raise `KeyError`); `hybrid` never occurs in tier outputs, and
the theorems below only use this function away from `hybrid`, so it is
totalised with value 0 there. -/
def method_priority : DiscoveryMethod → Nat
  | .aria_semantic => 3
  | .visual_pattern => 2
  | .yaml_fallback => 1
  | .hybrid => 0

/-- Lexicographic key comparison used by the Python
`max(group, key=lambda s: (s.confidence, method_priority[...]))`. -/
def merge_key_lt (s1 s2 : DiscoveredSection) : Bool :=
  decide (s1.confidence < s2.confidence)
  || (s1.confidence == s2.confidence
      && decide (method_priority s1.discovery_method < method_priority s2.discovery_method))

/-- Python `max` with a key: the first element attaining the maximal key. -/
def py_max_section (hd : DiscoveredSection) (tl : List DiscoveredSection) :
    DiscoveredSection :=
  tl.foldl (fun best s => if merge_key_lt best s then s else best) hd

/-- Greedy clustering of `merge_discoveries` (lines 940-951): each section
joins the first existing cluster whose *first* member overlaps it,
otherwise starts a new cluster. -/
def add_to_groups (groups : List (List DiscoveredSection))
    (s : DiscoveredSection) : List (List DiscoveredSection) :=
  match groups with
  | [] => [[s]]
  | g :: rest =>
    match g with
    | [] => [s] :: rest
    | hd :: _ =>
      if sections_overlap s hd then (g ++ [s]) :: rest
      else g :: add_to_groups rest s

def build_groups (sections : List DiscoveredSection) :
    List (List DiscoveredSection) :=
  sections.foldl add_to_groups []

/-- The `merged_from` metadata written by the merge: in Python the
survivor's `discovery_method` is overwritten with `HYBRID` *before* the
list comprehension reads the group, so the survivor's own entry (the
first group member equal to the survivor, matching `max`'s choice of the
first maximal element) reads as `hybrid`. -/
def merged_from_methods :
    List DiscoveredSection → DiscoveredSection → List DiscoveryMethod
  | [], _ => []
  | s :: rest, best =>
    if s == best then DiscoveryMethod.hybrid :: rest.map (·.discovery_method)
    else s.discovery_method :: merged_from_methods rest best

/-- Collapse one cluster: keep the member with the maximal
`(confidence, method_priority)` key (first on ties), relabelling it
`hybrid` and recording the contributing methods when the cluster has
more than one member. -/
def collapse_group (g : List DiscoveredSection) : List DiscoveredSection :=
  match g with
  | [] => []
  | hd :: tl =>
    let best := py_max_section hd tl
    if tl.isEmpty then [best]
    else [{ best with discovery_method := .hybrid
                      md_merged_from := merged_from_methods (hd :: tl) best }]

/-- Insertion-ordered grouping by `content_type`, as a Python dict built
by iteration preserves the order in which keys first appear. -/
def group_by_content (sections : List DiscoveredSection) :
    List (ContentType × List DiscoveredSection) :=
  sections.foldl
    (fun acc s =>
      if acc.any (fun p => p.1 == s.content_type) then
        acc.map (fun p => if p.1 == s.content_type then (p.1, p.2 ++ [s]) else p)
      else acc ++ [(s.content_type, [s])])
    []

/-- Embedding of `merge_discoveries` (lines 904-974): concatenate the
tiers, group by content type, and within each type either keep a sole
section as is or cluster overlapping sections and collapse each
cluster. -/
def merge_discoveries (tier1 tier2 tier3 : List DiscoveredSection) :
    List DiscoveredSection :=
  (group_by_content (tier1 ++ tier2 ++ tier3)).flatMap
    (fun p =>
      match p.2 with
      | [s] => [s]
      | sections => (build_groups sections).flatMap collapse_group)

/-! ### Activation and validation

The DOM interactions of `activate_and_validate_section`,
`validate_section_has_content` and `handle_section_lazy_loading` are
abstracted into `DiscoveryEnv`, keyed by the full section value at the
time of the call:

* `validation s` is the number of type-specific indicator items counted
  inside `s`'s scope (`none` when the counting raised);
* `already_active s` is the (exception-absorbing) result of
  `is_section_active`;
* `click_ok s` tells whether the activation click succeeded;
* `lazy_scroll s` tells whether the scroll-to-bottom of the lazy-loading
  check succeeded (`false` = raised, skipping the re-validation).
-/

structure DiscoveryEnv where
  validation : DiscoveredSection → Option Nat
  already_active : DiscoveredSection → Bool
  click_ok : DiscoveredSection → Bool
  lazy_scroll : DiscoveredSection → Bool

/-- Embedding of `validate_section_has_content` (lines 1109-1171): sets
`item_count_after_activation` and `contains_items` from the indicator
count, or to `0`/`false` when the count raised; returns the updated
section and `contains_items`. -/
def validate_section_has_content (env : DiscoveryEnv) (s : DiscoveredSection) :
    DiscoveredSection × Bool :=
  match env.validation s with
  | some n =>
      ({ s with item_count_after_activation := n, contains_items := decide (0 < n) },
       decide (0 < n))
  | none =>
      ({ s with item_count_after_activation := 0, contains_items := false }, false)

/-- Embedding of `activate_and_validate_section` (lines 1010-1077). -/
def activate_and_validate_section (env : DiscoveryEnv) (s : DiscoveredSection) :
    DiscoveredSection × Bool :=
  if !optTruthy s.activation_locator then
    -- no locator: try to validate anyway
    validate_section_has_content env s
  else if env.already_active s then
    validate_section_has_content env { s with was_activated := false }
  else if env.click_ok s then
    validate_section_has_content env { s with was_activated := true }
  else
    -- click raised: record the error and attempt a post-hoc validation
    match validate_section_has_content env { s with md_activation_error := true } with
    | (s2, true) => ({ s2 with activation_required := false }, true)
    | (s2, false) => (s2, false)

/-- Embedding of `handle_section_lazy_loading` (lines 1173-1215): no-op
for sections without a truthy `locator` or when the scroll raises;
otherwise re-validates and marks `has_lazy_loading` when the item count
grew. -/
def handle_section_lazy_loading (env : DiscoveryEnv) (s : DiscoveredSection) :
    DiscoveredSection :=
  if !optTruthy s.locator then s
  else if !env.lazy_scroll s then s
  else if s.item_count_after_activation
      < (validate_section_has_content env s).1.item_count_after_activation then
    { (validate_section_has_content env s).1 with md_has_lazy_loading := true }
  else (validate_section_has_content env s).1

/-- Step 3 of `discover_all_sections` for one section (lines 344-375):
activate when required (skipping the rest on failure), else validate;
then run the lazy-loading check for vendor/cookie sections that contain
items. -/
def lazy_step (env : DiscoveryEnv) (s1 : DiscoveredSection) : DiscoveredSection :=
  if s1.contains_items
      && (s1.content_type == ContentType.vendors
          || s1.content_type == ContentType.cookies) then
    handle_section_lazy_loading env s1
  else s1

def process_section (env : DiscoveryEnv) (s : DiscoveredSection) :
    DiscoveredSection :=
  if s.activation_required then
    if (activate_and_validate_section env s).2 then
      lazy_step env (activate_and_validate_section env s).1
    else
      -- activation/validation failed: `continue`, skipping the lazy check
      (activate_and_validate_section env s).1
  else
    lazy_step env (validate_section_has_content env s).1

def processed_sections (env : DiscoveryEnv)
    (tier1 tier2 tier3 : List DiscoveredSection) : List DiscoveredSection :=
  (merge_discoveries tier1 tier2 tier3).map (process_section env)

/-- Step 4 of `discover_all_sections` (lines 377-388): the *first*
content-having section of each content type becomes that type's best
section. -/
def assign_best (r : SectionDiscoveryResult) (s : DiscoveredSection) :
    SectionDiscoveryResult :=
  if s.contains_items then
    if s.content_type == ContentType.categories && r.categories_section.isNone then
      { r with categories_section := some s }
    else if s.content_type == ContentType.vendors && r.vendors_section.isNone then
      { r with vendors_section := some s }
    else if s.content_type == ContentType.cookies && r.cookies_section.isNone then
      { r with cookies_section := some s }
    else if s.content_type == ContentType.purposes && r.purposes_section.isNone then
      { r with purposes_section := some s }
    else r
  else r

/-- Embedding of `discover_all_sections` (lines 298-410), from the merge
step on: tier outputs are merged, each merged section is activated and
validated in place, per-type best sections are assigned, and only the
content-having sections are kept in `sections`. -/
def discover_all_sections (env : DiscoveryEnv)
    (tier1 tier2 tier3 : List DiscoveredSection) : SectionDiscoveryResult :=
  let processed := processed_sections env tier1 tier2 tier3
  let r := processed.foldl assign_best {}
  { r with sections := processed.filter (·.contains_items) }

/-! ## Vendor extraction (`src/consentcrawl/ui_explorer.py`,
`extract_vendors_from_discovery`, lines 1150-1283)

A DOM vendor item is abstracted to the three observations the extractor
makes of it: the text of its first heading/strong/name-class descendant
(if any), its full inner text, and the href of its first privacy link
(if any).  The enumeration results of the two item patterns, of the
lazy-loading re-enumeration, and of the YAML fallback path
(`extract_vendors`) are supplied by `VendorExtractEnv`.
-/

structure VendorItem where
  name_candidate : Option String := none
  text : String := ""
  privacy_href : Option String := none
deriving DecidableEq, Repr

structure VendorExtractEnv where
  vendor_class_items : List VendorItem := []
  list_items : List VendorItem := []
  lazy_items : List VendorItem := []
  fallback : List VendorInfo := []
deriving Repr

/-- Name derivation for one vendor item: the stripped first heading
candidate, else the first stripped text line with length in (2, 100);
items whose final name is empty or a single character are skipped. -/
def vendor_name_of_item (it : VendorItem) : Option String :=
  let name0 := match it.name_candidate with
               | some t => pyStrip t
               | none => ""
  let name1 :=
    if name0 = "" ∨ name0.length < 2 then
      match ((pySplit it.text '\n').map pyStrip).find?
          (fun l => decide (2 < l.length) && decide (l.length < 100)) with
      | some l => l
      | none => name0
    else name0
  if name1 = "" ∨ name1.length < 2 then none else some name1

def vendor_info_of_item (it : VendorItem) : Option VendorInfo :=
  (vendor_name_of_item it).map
    (fun n => { name := n, privacy_policy_url := it.privacy_href })

def extract_vendors_from_discovery (env : VendorExtractEnv)
    (sec : Option DiscoveredSection) : List VendorInfo :=
  match sec with
  | none => env.fallback
  | some s =>
    if !s.contains_items then env.fallback
    else
      -- pattern 1 (vendor/partner classes), else pattern 2 (list items)
      let items0 := if !env.vendor_class_items.isEmpty then env.vendor_class_items
                    else env.list_items
      -- lazy loading re-enumeration, only when metadata flags it and
      -- items were found
      let items := if s.md_has_lazy_loading && !items0.isEmpty then env.lazy_items
                   else items0
      -- the loop visits only the first 500 enumerated items
      let vendors := (items.take 500).filterMap vendor_info_of_item
      if vendors.isEmpty then env.fallback else vendors

/-! ## Claim theorems -/

/-- C1: the claim says that an audit whose banner detection completes with
`detected = false` gets a failed/no-banner status.  The code contradicts
this (and the status documentation in `audit_schemas.py`, which reads
"failed: No banner detected"): `audit_url` unconditionally sets
`success_basic` after banner detection, so a `detected = false` banner
still yields `success_basic`, with the `detected = false` `BannerInfo`
attached.  This theorem evaluates the embedded code at such an input. -/
theorem C1_no_banner_still_success_basic :
    (audit_url { nav := .ok, banner := { detected := false } } {}).result.status
      = "success_basic"
    ∧ (audit_url { nav := .ok, banner := { detected := false } } {}).result.banner_info
      = some { detected := false } := by
  constructor <;> rfl

/-- C2: the claim says "Accepter tout" maps to `accept_all`,
"Continuer sans accepter" to `reject_all`, "Gérer mes choix" to
`settings`, and unmatched text to `unknown`.  Three of the four hold,
but the code classifies "Continuer sans accepter" as `accept_all`: the
accept pattern "accepter" (and "accept") is a substring of the lowered
text and the only guards are "necessary"/"essential", so the reject
check is never reached.  (The hardcoded Trust Commander extractor in the
same file labels this exact button `reject_all`, so the spec matches the
code's own intent.)  The classifier receives `text.strip().lower()`,
hence the `pyLower` on the inputs. -/
theorem C2_classify_button_role_eval :
    classify_button_role (pyLower "Accepter tout") "" = "accept_all"
    ∧ classify_button_role (pyLower "Continuer sans accepter") "" = "accept_all"
    ∧ classify_button_role (pyLower "Gérer mes choix") "" = "settings"
    ∧ classify_button_role "xyzzy qwfpb" "" = "unknown" := by
  refine ⟨?_, ?_, ?_, ?_⟩ <;> decide

/-- Concrete audit environment refuting C3 as stated: a detected banner
with no settings-role button but a truthy `cmp_type`. -/
def c3_env : AuditEnv :=
  { nav := .ok
    banner := { detected := true, cmp_type := some "onetrust", buttons := [] }
    detailed := .returnedData [{ name := "Functional" }] [] [] }

/-- C3 counterexample: the claim says detailed extraction is attempted
only when a settings-role button exists (and `max_ui_depth > 0`), but
the gate in `audit_url` is `(settings_button or banner_info.cmp_type)
and config.max_ui_depth > 0`: a truthy `cmp_type` alone triggers the
attempt (and here even the upgrade to `success_detailed`) with no
settings button present. -/
theorem C3_counterexample :
    ¬ ((audit_url c3_env {}).detailed_extraction_attempted = true →
       c3_env.banner.buttons.any (fun b => b.role == "settings") = true) := by
  decide

/-- C3 amended: detailed extraction is attempted exactly when navigation
did not hard-fail AND (a settings-role button exists OR the banner's
`cmp_type` is set and non-empty) AND `max_ui_depth > 0`; and the status
is upgraded to `success_detailed` only when detailed extraction was
attempted and yielded at least one category or at least one vendor. -/
theorem C3_detailed_extraction_gate (env : AuditEnv) (config : AuditConfig) :
    ((audit_url env config).detailed_extraction_attempted = true ↔
      (env.nav = .ok ∨ env.nav = .timeout)
      ∧ (env.banner.buttons.any (fun b => b.role == "settings") = true
         ∨ optTruthy env.banner.cmp_type = true)
      ∧ 0 < config.max_ui_depth)
    ∧ ((audit_url env config).result.status = "success_detailed" →
      (audit_url env config).detailed_extraction_attempted = true
      ∧ (0 < (audit_url env config).result.categories.length
         ∨ 0 < (audit_url env config).result.vendors.length)) := by
  unfold audit_url
  cases henv : env.nav <;>
    cases hd : env.detailed <;>
      simp_all <;>
        split_ifs <;>
          simp_all

theorem C3_detailed_extraction_gate_witness :
    (audit_url { nav := .ok
                 banner := { detected := true
                             buttons := [{ text := "paramétrer", role := "settings",
                                           selector := "#s" }] } } {}).detailed_extraction_attempted
      = true :=
  (C3_detailed_extraction_gate _ _).1.mpr ⟨Or.inl rfl, Or.inl (by decide), by decide⟩

/-- C8: if every detection strategy fails to find a banner (all seven
hardcoded detectors, the YAML CMP-specific pass, generic, text-based,
iframe and shadow-DOM search all come back empty), `detect_banner`
returns the explicit `detected = false` marker: a non-null `BannerInfo`,
never `None` and never an exception (the embedding is a total
function). -/
theorem C8_detect_banner_all_fail (env : DetectBannerEnv) (config : AuditConfig)
    (h1 : ∀ n, env.hardcoded n = none)
    (h2 : env.cmp_specific = none) (h3 : env.generic = none)
    (h4 : env.text_based = none) (h5 : env.iframes = none)
    (h6 : env.shadow = none) :
    detect_banner env config = some { detected := false } := by
  unfold detect_banner
  simp [hardcoded_detectors, h1, h2, h3, h4, h5, h6]

theorem C8_detect_banner_all_fail_witness :
    detect_banner { hardcoded := fun _ => none } {} = some { detected := false } :=
  C8_detect_banner_all_fail _ _ (fun _ => rfl) rfl rfl rfl rfl rfl

/-- C9: a hard (non-timeout) navigation error short-circuits the audit to
status `error` without attempting banner detection; a navigation timeout
does not take the error status and the audit still proceeds to banner
detection. -/
theorem C9_navigation_failure (env : AuditEnv) (config : AuditConfig) :
    (∀ e, env.nav = .err e →
      (audit_url env config).result.status = "error"
      ∧ (audit_url env config).banner_detection_attempted = false)
    ∧ (env.nav = .timeout →
      (audit_url env config).banner_detection_attempted = true
      ∧ (audit_url env config).result.status ≠ "error") := by
  unfold audit_url
  cases henv : env.nav <;>
    cases hd : env.detailed <;>
      simp_all <;>
        split_ifs <;>
          simp_all

theorem C9_navigation_failure_witness :
    (audit_url { nav := .err "net::ERR_NAME_NOT_RESOLVED",
                 banner := { detected := false } } {}).result.status = "error"
    ∧ (audit_url { nav := .timeout,
                   banner := { detected := false } } {}).banner_detection_attempted
      = true :=
  ⟨((C9_navigation_failure _ _).1 _ rfl).1, ((C9_navigation_failure _ _).2 rfl).1⟩

/-! ### C4: navigation with no detectable modal -/

theorem try_click_go_fst_none (env : NavEnv) (name sel : String)
    (hno : ∀ i, env.click sel i ≠ .modalFound) :
    ∀ fuel i, (try_click_go env name sel fuel i).1 = none := by
  intro fuel
  induction fuel with
  | zero => intro i; rfl
  | succ fuel ih =>
    intro i
    unfold try_click_go
    cases hc : env.click sel i with
    | modalFound => exact absurd hc (hno i)
    | noModal => exact ih (i + 1)
    | timeoutErr m =>
      by_cases hf : fuel = 0
      · simp [hf]
      · simp [hf]; exact ih (i + 1)
    | otherErr m => rfl

theorem try_click_go_attempts (env : NavEnv) (name sel : String)
    (hno : ∀ i, env.click sel i ≠ .modalFound) :
    ∀ fuel i, ∀ a ∈ (try_click_go env name sel fuel i).2,
      a.success = false ∧ a.strategy = name := by
  intro fuel
  induction fuel with
  | zero => intro i a ha; simp [try_click_go] at ha
  | succ fuel ih =>
    intro i a ha
    unfold try_click_go at ha
    cases hc : env.click sel i with
    | modalFound => exact absurd hc (hno i)
    | noModal => rw [hc] at ha; exact ih (i + 1) a ha
    | timeoutErr m =>
      rw [hc] at ha
      by_cases hf : fuel = 0
      · simp [hf] at ha; simp [ha]
      · simp [hf] at ha; exact ih (i + 1) a ha
    | otherErr m =>
      rw [hc] at ha
      simp at ha; simp [ha]

theorem run_strategies_no_modal (env : NavEnv)
    (hno : ∀ sel i, env.click sel i ≠ .modalFound) :
    ∀ L, (run_strategies env L).1 = none
      ∧ ∀ a ∈ (run_strategies env L).2.1,
          a.success = false ∧ a.strategy ∈ (run_strategies env L).2.2 := by
  intro L
  induction L with
  | nil => exact ⟨rfl, by intro a ha; simp [run_strategies] at ha⟩
  | cons hd tl ih =>
    obtain ⟨name, sel, mr⟩ := hd
    have hfst : (try_click_strategy env name sel mr).1 = none :=
      try_click_go_fst_none env name sel (hno sel) mr 0
    have hatts : ∀ a ∈ (try_click_strategy env name sel mr).2,
        a.success = false ∧ a.strategy = name :=
      try_click_go_attempts env name sel (hno sel) mr 0
    unfold run_strategies
    rcases htry : try_click_strategy env name sel mr with ⟨res, atts⟩
    rw [htry] at hfst hatts
    simp only at hfst
    subst hfst
    rcases hrec : run_strategies env tl with ⟨res2, atts2, tried2⟩
    rw [hrec] at ih
    simp only at ih ⊢
    refine ⟨ih.1, ?_⟩
    intro a ha
    rcases List.mem_append.mp ha with h | h
    · exact ⟨(hatts a h).1, by simp [(hatts a h).2]⟩
    · have h2 := ih.2 a h
      exact ⟨h2.1, by simp [h2.2]⟩

/-- C4 amended: when no click on any selector ever results in a
detectable modal, `execute_navigation_flow` returns `(None, report)`
with `final_state = FAILED`, and every attempt recorded in the report is
a failed attempt belonging to a tried strategy.  (The original claim
asked for at least one failed attempt per tried strategy; the code
records an attempt only when the click itself raises, not when a
successful click yields no modal — see the counterexample.) -/
theorem C4_no_modal_failed (env : NavEnv) (banner : BannerInfo)
    (hno : ∀ sel i, env.click sel i ≠ .modalFound) :
    (execute_navigation_flow env banner).modal = none
    ∧ (execute_navigation_flow env banner).report.final_state = .failed
    ∧ ∀ a ∈ (execute_navigation_flow env banner).report.attempts,
        a.success = false
        ∧ a.strategy ∈ (execute_navigation_flow env banner).tried_strategies := by
  cases hsel : select_settings_button banner with
  | none =>
    unfold execute_navigation_flow
    rw [hsel]
    exact ⟨rfl, rfl, by intro a ha; simp at ha⟩
  | some btn =>
    have h := run_strategies_no_modal env hno (strategy_list env btn)
    rcases hrun : run_strategies env (strategy_list env btn) with ⟨res, atts, tried⟩
    rw [hrun] at h
    simp only at h
    obtain ⟨hres, hatt⟩ := h
    subst hres
    unfold execute_navigation_flow
    simp only [hsel, hrun]
    exact ⟨trivial, trivial, hatt⟩

/-- Banner with a settings-role button, used by the C4 counterexample
and witness. -/
def c4_banner : BannerInfo :=
  { detected := true
    buttons := [{ text := "", role := "settings", selector := "#settings-btn" }] }

/-- Environment in which every click succeeds but no modal ever becomes
detectable, and no fallback pattern matches any element. -/
def c4_env : NavEnv :=
  { click := fun _ _ => .noModal
    pattern_count := fun _ => some 0
    modal_ready := true }

/-- C4 counterexample: on a banner with a settings button whose clicks
succeed but never produce a detectable modal, the flow does end in
`(None, report)` with `final_state = FAILED`, but the tried strategy
`direct_selector` has *no* recorded failed attempt (the attempts list is
empty): `_try_click_strategy` only records an attempt when the click
raises or a modal is found. -/
theorem C4_counterexample :
    ¬ ((execute_navigation_flow c4_env c4_banner).modal = none
       ∧ (execute_navigation_flow c4_env c4_banner).report.final_state = .failed
       ∧ ∀ s ∈ (execute_navigation_flow c4_env c4_banner).tried_strategies,
           ∃ a ∈ (execute_navigation_flow c4_env c4_banner).report.attempts,
             a.strategy = s ∧ a.success = false) := by
  decide

/-- Environment in which every click raises a non-timeout error. -/
def c4_env_err : NavEnv :=
  { click := fun _ _ => .otherErr "Element is not attached to the DOM"
    pattern_count := fun _ => none
    modal_ready := true }

theorem C4_no_modal_failed_witness :
    (execute_navigation_flow c4_env_err c4_banner).modal = none
    ∧ (execute_navigation_flow c4_env_err c4_banner).report.final_state = .failed :=
  ⟨(C4_no_modal_failed c4_env_err c4_banner (fun _ _ => by simp [c4_env_err])).1,
   (C4_no_modal_failed c4_env_err c4_banner (fun _ _ => by simp [c4_env_err])).2.1⟩

/-! ### Shared lemmas about `assign_best` (used by C5 and C6) -/

theorem assign_best_categories (r : SectionDiscoveryResult) (s : DiscoveredSection) :
    (assign_best r s).categories_section =
      if (s.contains_items && s.content_type == ContentType.categories)
          && r.categories_section.isNone
      then some s else r.categories_section := by
  unfold assign_best
  split_ifs <;> simp_all

theorem assign_best_vendors (r : SectionDiscoveryResult) (s : DiscoveredSection) :
    (assign_best r s).vendors_section =
      if (s.contains_items && s.content_type == ContentType.vendors)
          && r.vendors_section.isNone
      then some s else r.vendors_section := by
  unfold assign_best
  split_ifs <;> simp_all

theorem assign_best_cookies (r : SectionDiscoveryResult) (s : DiscoveredSection) :
    (assign_best r s).cookies_section =
      if (s.contains_items && s.content_type == ContentType.cookies)
          && r.cookies_section.isNone
      then some s else r.cookies_section := by
  unfold assign_best
  split_ifs <;> simp_all

theorem assign_best_purposes (r : SectionDiscoveryResult) (s : DiscoveredSection) :
    (assign_best r s).purposes_section =
      if (s.contains_items && s.content_type == ContentType.purposes)
          && r.purposes_section.isNone
      then some s else r.purposes_section := by
  unfold assign_best
  split_ifs <;> simp_all

theorem foldl_assign_categories (l : List DiscoveredSection) (r : SectionDiscoveryResult) :
    (l.foldl assign_best r).categories_section
      = r.categories_section.or
          (l.find? (fun s => s.contains_items && s.content_type == ContentType.categories)) := by
  induction l generalizing r with
  | nil => simp
  | cons s l ih =>
    rw [List.foldl_cons, ih]
    by_cases hp : (s.contains_items && s.content_type == ContentType.categories) = true
    · rw [assign_best_categories]
      cases hr : r.categories_section <;> simp [List.find?_cons, hp, hr]
    · rw [assign_best_categories]
      simp [List.find?_cons, hp]

theorem foldl_assign_vendors (l : List DiscoveredSection) (r : SectionDiscoveryResult) :
    (l.foldl assign_best r).vendors_section
      = r.vendors_section.or
          (l.find? (fun s => s.contains_items && s.content_type == ContentType.vendors)) := by
  induction l generalizing r with
  | nil => simp
  | cons s l ih =>
    rw [List.foldl_cons, ih]
    by_cases hp : (s.contains_items && s.content_type == ContentType.vendors) = true
    · rw [assign_best_vendors]
      cases hr : r.vendors_section <;> simp [List.find?_cons, hp, hr]
    · rw [assign_best_vendors]
      simp [List.find?_cons, hp]

theorem foldl_assign_cookies (l : List DiscoveredSection) (r : SectionDiscoveryResult) :
    (l.foldl assign_best r).cookies_section
      = r.cookies_section.or
          (l.find? (fun s => s.contains_items && s.content_type == ContentType.cookies)) := by
  induction l generalizing r with
  | nil => simp
  | cons s l ih =>
    rw [List.foldl_cons, ih]
    by_cases hp : (s.contains_items && s.content_type == ContentType.cookies) = true
    · rw [assign_best_cookies]
      cases hr : r.cookies_section <;> simp [List.find?_cons, hp, hr]
    · rw [assign_best_cookies]
      simp [List.find?_cons, hp]

theorem foldl_assign_purposes (l : List DiscoveredSection) (r : SectionDiscoveryResult) :
    (l.foldl assign_best r).purposes_section
      = r.purposes_section.or
          (l.find? (fun s => s.contains_items && s.content_type == ContentType.purposes)) := by
  induction l generalizing r with
  | nil => simp
  | cons s l ih =>
    rw [List.foldl_cons, ih]
    by_cases hp : (s.contains_items && s.content_type == ContentType.purposes) = true
    · rw [assign_best_purposes]
      cases hr : r.purposes_section <;> simp [List.find?_cons, hp, hr]
    · rw [assign_best_purposes]
      simp [List.find?_cons, hp]

/-! ### C5: selection of the per-type best section -/

/-- C5 amended: the per-content-type best section of a
`SectionDiscoveryResult` is the *first* (in merged order) processed
section of that content type with `contains_items`, not the one with the
highest confidence; there is at most one best section per content type
(the field is an `Option`).  See the counterexample for the
highest-confidence reading of the original claim. -/
theorem discover_best_eq_find (env : DiscoveryEnv)
    (t1 t2 t3 : List DiscoveredSection) :
    (discover_all_sections env t1 t2 t3).categories_section
      = (processed_sections env t1 t2 t3).find?
          (fun s => s.contains_items && s.content_type == ContentType.categories)
    ∧ (discover_all_sections env t1 t2 t3).vendors_section
      = (processed_sections env t1 t2 t3).find?
          (fun s => s.contains_items && s.content_type == ContentType.vendors)
    ∧ (discover_all_sections env t1 t2 t3).cookies_section
      = (processed_sections env t1 t2 t3).find?
          (fun s => s.contains_items && s.content_type == ContentType.cookies)
    ∧ (discover_all_sections env t1 t2 t3).purposes_section
      = (processed_sections env t1 t2 t3).find?
          (fun s => s.contains_items && s.content_type == ContentType.purposes) := by
  unfold discover_all_sections
  refine ⟨?_, ?_, ?_, ?_⟩
  · rw [foldl_assign_categories]; rfl
  · rw [foldl_assign_vendors]; rfl
  · rw [foldl_assign_cookies]; rfl
  · rw [foldl_assign_purposes]; rfl

theorem C5_best_section_is_first (env : DiscoveryEnv)
    (t1 t2 t3 : List DiscoveredSection) :
    (discover_all_sections env t1 t2 t3).categories_section
      = (processed_sections env t1 t2 t3).find?
          (fun s => s.contains_items && s.content_type == ContentType.categories)
    ∧ (discover_all_sections env t1 t2 t3).vendors_section
      = (processed_sections env t1 t2 t3).find?
          (fun s => s.contains_items && s.content_type == ContentType.vendors)
    ∧ (discover_all_sections env t1 t2 t3).cookies_section
      = (processed_sections env t1 t2 t3).find?
          (fun s => s.contains_items && s.content_type == ContentType.cookies)
    ∧ (discover_all_sections env t1 t2 t3).purposes_section
      = (processed_sections env t1 t2 t3).find?
          (fun s => s.contains_items && s.content_type == ContentType.purposes) :=
  discover_best_eq_find env t1 t2 t3

/-- Tier-1 tab section (confidence 0.85, no `aria-controls`), listed
before the accordion section in tier-1 order. -/
def c5_tab : DiscoveredSection :=
  { section_type := .tab, content_type := .categories, locator := none
    activation_required := true, activation_locator := some "#tab-purposes"
    discovery_method := .aria_semantic, confidence := mkRat 85 100 }

/-- Tier-1 accordion section (confidence 0.9, resolved `aria-controls`,
already expanded). -/
def c5_accordion : DiscoveredSection :=
  { section_type := .accordion, content_type := .categories, locator := some "#acc-panel"
    activation_required := false, activation_locator := some "#acc-header"
    discovery_method := .aria_semantic, confidence := mkRat 9 10
    md_button_text := "Catégories de cookies" }

/-- Environment in which both sections validate with items (4 and 7
respectively); activation clicks succeed. -/
def c5_env : DiscoveryEnv :=
  { validation := fun s => if s.section_type == SectionType.tab then some 4 else some 7
    already_active := fun _ => false
    click_ok := fun _ => true
    lazy_scroll := fun _ => false }

/-- C5 counterexample: the claim says the best section per content type
is the one with the highest confidence among content-having sections of
that type.  Here two non-overlapping categories sections both contain
items; the first in merged order has confidence 0.85, a later one has
confidence 0.9, and `discover_all_sections` picks the first (0.85) — the
step-4 loop takes the first content-having section, with no confidence
comparison. -/
theorem C5_counterexample :
    ¬ (∀ best ∈ (discover_all_sections c5_env [c5_tab, c5_accordion] [] []).categories_section,
        ∀ s ∈ (discover_all_sections c5_env [c5_tab, c5_accordion] [] []).sections,
          s.content_type = ContentType.categories → s.contains_items = true →
            s.confidence ≤ best.confidence) := by
  decide

/-! ### C6: content-having sections have a positive validated item count -/

theorem validate_fst_consistent (env : DiscoveryEnv) (s : DiscoveredSection)
    (h : (validate_section_has_content env s).1.contains_items = true) :
    1 ≤ (validate_section_has_content env s).1.item_count_after_activation := by
  unfold validate_section_has_content at h ⊢
  cases hv : env.validation s <;> simp_all <;> omega

theorem activate_fst_consistent (env : DiscoveryEnv) (s : DiscoveredSection)
    (h : (activate_and_validate_section env s).1.contains_items = true) :
    1 ≤ (activate_and_validate_section env s).1.item_count_after_activation := by
  unfold activate_and_validate_section at h ⊢
  split_ifs at h ⊢ with h1 h2 h3
  · exact validate_fst_consistent env s h
  · exact validate_fst_consistent env _ h
  · exact validate_fst_consistent env _ h
  · -- click raised: post-hoc validation, possibly clearing activation_required
    rcases hval : validate_section_has_content env
        { s with md_activation_error := true } with ⟨s2, has⟩
    have hc : s2.contains_items = true → 1 ≤ s2.item_count_after_activation := by
      intro hh
      have hvv := validate_fst_consistent env { s with md_activation_error := true }
      rw [hval] at hvv
      exact hvv hh
    cases has <;> simp_all

theorem lazy_fst_consistent (env : DiscoveryEnv) (s : DiscoveredSection)
    (hs : s.contains_items = true → 1 ≤ s.item_count_after_activation)
    (h : (handle_section_lazy_loading env s).contains_items = true) :
    1 ≤ (handle_section_lazy_loading env s).item_count_after_activation := by
  unfold handle_section_lazy_loading at h ⊢
  split_ifs at h ⊢
  · exact hs h
  · exact hs h
  · -- re-validated and flagged; the marker does not change the counts
    have hvv := validate_fst_consistent env s
    simp_all
  · exact validate_fst_consistent env s h

theorem lazy_step_consistent (env : DiscoveryEnv) (s : DiscoveredSection)
    (hs : s.contains_items = true → 1 ≤ s.item_count_after_activation)
    (h : (lazy_step env s).contains_items = true) :
    1 ≤ (lazy_step env s).item_count_after_activation := by
  unfold lazy_step at h ⊢
  split_ifs at h ⊢
  · exact lazy_fst_consistent env s hs h
  · exact hs h

/-- Core invariant behind C6: after the activation/validation pass, a
section's `contains_items` can only be `true` when the validation
recorded at least one indicator item in
`item_count_after_activation`. -/
theorem process_section_consistent (env : DiscoveryEnv) (s : DiscoveredSection)
    (h : (process_section env s).contains_items = true) :
    1 ≤ (process_section env s).item_count_after_activation := by
  unfold process_section at h ⊢
  split_ifs at h ⊢
  · exact lazy_step_consistent env _ (activate_fst_consistent env s) h
  · exact activate_fst_consistent env s h
  · exact lazy_step_consistent env _ (validate_fst_consistent env s) h

/-- C6: every section returned as a content type's best section has
`contains_items = true` and a positive `item_count_after_activation`;
every section in the result's `sections` list likewise; and, as the
underlying invariant, every section coming out of the
activation/validation pass has `contains_items = true` only if the
validation counted at least one indicator item. -/
theorem C6_contains_items_counted (env : DiscoveryEnv)
    (t1 t2 t3 : List DiscoveredSection) :
    (∀ s, (discover_all_sections env t1 t2 t3).categories_section = some s →
        s.contains_items = true ∧ 1 ≤ s.item_count_after_activation)
    ∧ (∀ s, (discover_all_sections env t1 t2 t3).vendors_section = some s →
        s.contains_items = true ∧ 1 ≤ s.item_count_after_activation)
    ∧ (∀ s, (discover_all_sections env t1 t2 t3).cookies_section = some s →
        s.contains_items = true ∧ 1 ≤ s.item_count_after_activation)
    ∧ (∀ s, (discover_all_sections env t1 t2 t3).purposes_section = some s →
        s.contains_items = true ∧ 1 ≤ s.item_count_after_activation)
    ∧ (∀ s ∈ (discover_all_sections env t1 t2 t3).sections,
        s.contains_items = true ∧ 1 ≤ s.item_count_after_activation)
    ∧ (∀ s ∈ processed_sections env t1 t2 t3,
        s.contains_items = true → 1 ≤ s.item_count_after_activation) := by
  have hproc : ∀ s ∈ processed_sections env t1 t2 t3,
      s.contains_items = true → 1 ≤ s.item_count_after_activation := by
    intro s hs
    unfold processed_sections at hs
    rcases List.mem_map.mp hs with ⟨s0, _, rfl⟩
    exact process_section_consistent env s0
  have hfind : ∀ (p : DiscoveredSection → Bool) (s : DiscoveredSection),
      (processed_sections env t1 t2 t3).find?
          (fun x => x.contains_items && p x) = some s →
      s.contains_items = true ∧ 1 ≤ s.item_count_after_activation := by
    intro p s hf
    have hmem := List.mem_of_find?_eq_some hf
    have hp := List.find?_some hf
    have hci : s.contains_items = true := (Bool.and_eq_true_iff.mp hp).1
    exact ⟨hci, hproc s hmem hci⟩
  obtain ⟨hc, hv, hk, hp⟩ := discover_best_eq_find env t1 t2 t3
  refine ⟨?_, ?_, ?_, ?_, ?_, hproc⟩
  · intro s hs; exact hfind _ s (hc ▸ hs)
  · intro s hs; exact hfind _ s (hv ▸ hs)
  · intro s hs; exact hfind _ s (hk ▸ hs)
  · intro s hs; exact hfind _ s (hp ▸ hs)
  · intro s hs
    unfold discover_all_sections at hs
    simp only at hs
    have := List.mem_filter.mp hs
    exact ⟨this.2, hproc s this.1 this.2⟩

/-- Already-visible categories list section used by the C6 witness. -/
def c6_section : DiscoveredSection :=
  { section_type := .list, content_type := .categories, locator := some "#cats"
    activation_required := false, activation_locator := none
    discovery_method := .visual_pattern, confidence := mkRat 7 10 }

/-- Environment in which validation counts 3 indicator items. -/
def c6_env : DiscoveryEnv :=
  { validation := fun _ => some 3, already_active := fun _ => false
    click_ok := fun _ => true, lazy_scroll := fun _ => false }

theorem C6_contains_items_counted_witness :
    ∃ s, (discover_all_sections c6_env [c6_section] [] []).categories_section = some s
      ∧ s.contains_items = true ∧ 1 ≤ s.item_count_after_activation :=
  ⟨_, rfl, (C6_contains_items_counted c6_env [c6_section] [] []).1 _ rfl⟩

/-! ### C7: merging sections with identical activation locators -/

theorem overlap_of_same_activation (s1 s2 : DiscoveredSection) (a : String)
    (h1 : s1.activation_locator = some a) (h2 : s2.activation_locator = some a)
    (ha : a ≠ "") :
    sections_overlap s2 s1 = true := by
  unfold sections_overlap
  simp [optTruthy, h1, h2, ha]

theorem group_by_content_pair (s1 s2 : DiscoveredSection)
    (h : s1.content_type = s2.content_type) :
    group_by_content [s1, s2] = [(s1.content_type, [s1, s2])] := by
  unfold group_by_content
  simp [h]

theorem build_groups_pair (s1 s2 : DiscoveredSection)
    (h : sections_overlap s2 s1 = true) :
    build_groups [s1, s2] = [[s1, s2]] := by
  unfold build_groups
  rw [List.foldl_cons, List.foldl_cons, List.foldl_nil,
    show add_to_groups [] s1 = [[s1]] from rfl]
  unfold add_to_groups
  simp [h]

theorem py_max_pair_spec (s1 s2 : DiscoveredSection) :
    (py_max_section s1 [s2] = s1 ∨ py_max_section s1 [s2] = s2)
    ∧ s1.confidence ≤ (py_max_section s1 [s2]).confidence
    ∧ s2.confidence ≤ (py_max_section s1 [s2]).confidence
    ∧ (s1.confidence = (py_max_section s1 [s2]).confidence →
        method_priority s1.discovery_method
          ≤ method_priority (py_max_section s1 [s2]).discovery_method)
    ∧ (s2.confidence = (py_max_section s1 [s2]).confidence →
        method_priority s2.discovery_method
          ≤ method_priority (py_max_section s1 [s2]).discovery_method) := by
  unfold py_max_section merge_key_lt
  simp only [List.foldl_cons, List.foldl_nil]
  by_cases hlt : (decide (s1.confidence < s2.confidence)
      || (s1.confidence == s2.confidence
          && decide (method_priority s1.discovery_method
              < method_priority s2.discovery_method))) = true
  · rw [if_pos hlt]
    rcases Bool.or_eq_true_iff.mp hlt with hc | hc
    · have h12 : s1.confidence < s2.confidence := of_decide_eq_true hc
      refine ⟨Or.inr rfl, le_of_lt h12, le_refl _, ?_, fun _ => le_refl _⟩
      intro hconf
      exact absurd h12 (by rw [hconf]; exact lt_irrefl _)
    · obtain ⟨hceq, hplt⟩ := Bool.and_eq_true_iff.mp hc
      exact ⟨Or.inr rfl, le_of_eq (eq_of_beq hceq), le_refl _,
        fun _ => le_of_lt (of_decide_eq_true hplt), fun _ => le_refl _⟩
  · rw [if_neg hlt]
    simp only [Bool.or_eq_true, Bool.and_eq_true, decide_eq_true_eq,
      not_or, not_and] at hlt
    obtain ⟨hnlt, hni⟩ := hlt
    refine ⟨Or.inl rfl, le_refl _, le_of_not_lt hnlt, fun _ => le_refl _, ?_⟩
    intro hconf
    exact Nat.le_of_not_lt (hni (beq_iff_eq.mpr hconf.symm))

/-- C7 amended: when the two merged sections have the same content type
and identical *non-empty* activation locators (Python's overlap test
treats `None` and `""` as missing - see the counterexample for the empty
string), `merge_discoveries` collapses them into exactly one section,
relabelled `hybrid` with the contributing methods recorded, and the
survivor is a member with maximal confidence; among members of maximal
confidence its method priority (ARIA 3 > visual 2 > YAML 1) is maximal.
The hypothesis that neither input is already `hybrid` reflects that the
Python `method_priority` dict has no `HYBRID` entry and the merge is
only applied to tier outputs. -/
theorem C7_merge_identical_activation (s1 s2 : DiscoveredSection)
    (t1 t2 t3 : List DiscoveredSection) (a : String)
    (hct : s1.content_type = s2.content_type)
    (h1 : s1.activation_locator = some a) (h2 : s2.activation_locator = some a)
    (ha : a ≠ "")
    (hm1 : s1.discovery_method ≠ .hybrid) (hm2 : s2.discovery_method ≠ .hybrid)
    (hcat : t1 ++ t2 ++ t3 = [s1, s2]) :
    ∃ b, (b = s1 ∨ b = s2)
      ∧ merge_discoveries t1 t2 t3
          = [{ b with discovery_method := .hybrid
                      md_merged_from := merged_from_methods [s1, s2] b }]
      ∧ s1.confidence ≤ b.confidence ∧ s2.confidence ≤ b.confidence
      ∧ (s1.confidence = b.confidence →
          method_priority s1.discovery_method ≤ method_priority b.discovery_method)
      ∧ (s2.confidence = b.confidence →
          method_priority s2.discovery_method ≤ method_priority b.discovery_method) := by
  have hover := overlap_of_same_activation s1 s2 a h1 h2 ha
  have hmerge : merge_discoveries t1 t2 t3
      = [{ py_max_section s1 [s2] with
            discovery_method := .hybrid
            md_merged_from := merged_from_methods [s1, s2] (py_max_section s1 [s2]) }] := by
    unfold merge_discoveries
    rw [hcat, group_by_content_pair s1 s2 hct]
    simp only [List.flatMap_cons, List.flatMap_nil, List.append_nil]
    rw [build_groups_pair s1 s2 hover]
    rfl
  obtain ⟨hb, hle1, hle2, hp1, hp2⟩ := py_max_pair_spec s1 s2
  exact ⟨py_max_section s1 [s2], hb, hmerge, hle1, hle2, hp1, hp2⟩

/-- Two vendor sections whose activation locators are the identical
*empty* string. -/
def c7_a : DiscoveredSection :=
  { section_type := .tab, content_type := .vendors, locator := none
    activation_required := true, activation_locator := some ""
    discovery_method := .aria_semantic, confidence := mkRat 8 10 }

def c7_b : DiscoveredSection :=
  { section_type := .tab, content_type := .vendors, locator := none
    activation_required := true, activation_locator := some ""
    discovery_method := .visual_pattern, confidence := mkRat 7 10 }

/-- C7 counterexample: the claim promises that two sections of the same
content type with identical `activation_locator` strings merge into
exactly one `hybrid` section.  With the identical string `""` the
Python overlap test `if s1.activation_locator and s2.activation_locator`
is falsy, so the two sections do not cluster: `merge_discoveries` keeps
both, and neither is `hybrid`. -/
theorem C7_counterexample :
    c7_a.activation_locator = c7_b.activation_locator
    ∧ c7_a.content_type = c7_b.content_type
    ∧ ¬ ((merge_discoveries [c7_a] [c7_b] []).length = 1
         ∧ ∀ s ∈ merge_discoveries [c7_a] [c7_b] [],
             s.discovery_method = DiscoveryMethod.hybrid) := by
  refine ⟨rfl, rfl, ?_⟩
  intro h
  have : (merge_discoveries [c7_a] [c7_b] []).length = 2 := rfl
  omega

/-- Tier-1 and tier-2 sections sharing the non-empty activation locator
`#partners-tab`, used by the C7 witness. -/
def c7_w1 : DiscoveredSection :=
  { section_type := .tab, content_type := .vendors, locator := none
    activation_required := true, activation_locator := some "#partners-tab"
    discovery_method := .aria_semantic, confidence := mkRat 8 10 }

def c7_w2 : DiscoveredSection :=
  { section_type := .tab, content_type := .vendors, locator := none
    activation_required := true, activation_locator := some "#partners-tab"
    discovery_method := .visual_pattern, confidence := mkRat 7 10 }

theorem C7_merge_identical_activation_witness :
    ∃ b, (b = c7_w1 ∨ b = c7_w2)
      ∧ merge_discoveries [c7_w1, c7_w2] [] []
          = [{ b with discovery_method := .hybrid
                      md_merged_from := merged_from_methods [c7_w1, c7_w2] b }]
      ∧ c7_w1.confidence ≤ b.confidence ∧ c7_w2.confidence ≤ b.confidence
      ∧ (c7_w1.confidence = b.confidence →
          method_priority c7_w1.discovery_method ≤ method_priority b.discovery_method)
      ∧ (c7_w2.confidence = b.confidence →
          method_priority c7_w2.discovery_method ≤ method_priority b.discovery_method) :=
  C7_merge_identical_activation c7_w1 c7_w2 [c7_w1, c7_w2] [] [] "#partners-tab"
    rfl rfl rfl (by decide) (by decide) (by decide) rfl

/-! ### C10: the 500-vendor cap -/

theorem length_filterMap_of_isSome {α β : Type} (f : α → Option β) (l : List α)
    (h : ∀ a ∈ l, (f a).isSome = true) :
    (l.filterMap f).length = l.length := by
  induction l with
  | nil => rfl
  | cons a l ih =>
    obtain ⟨b, hb⟩ := Option.isSome_iff_exists.mp (h a (List.mem_cons_self a l))
    rw [List.filterMap_cons, hb]
    simp only [List.length_cons]
    rw [ih (fun x hx => h x (List.mem_cons_of_mem a hx))]

/-- C10 amended: vendor extraction from a discovered section iterates at
most the first 500 enumerated items - the result either falls back to
the YAML extraction path (when the section is missing/empty or no item
yields a record) or has at most 500 records; and when at least 500 items
are enumerated and every enumerated item yields a valid vendor record,
exactly 500 `VendorInfo` records are produced (in particular for a list
of 600 items).  The original claim's "exactly 500 for every 600-item
list" fails for items without an extractable name - see the
counterexample. -/
theorem C10_vendor_cap :
    (∀ (env : VendorExtractEnv) (sec : Option DiscoveredSection),
      extract_vendors_from_discovery env sec = env.fallback
      ∨ (extract_vendors_from_discovery env sec).length ≤ 500)
    ∧ (∀ (env : VendorExtractEnv) (s : DiscoveredSection),
      s.contains_items = true → s.md_has_lazy_loading = false →
      500 ≤ env.vendor_class_items.length →
      (∀ it ∈ env.vendor_class_items, (vendor_info_of_item it).isSome = true) →
      (extract_vendors_from_discovery env (some s)).length = 500) := by
  constructor
  · intro env sec
    cases sec with
    | none => exact Or.inl rfl
    | some s =>
      unfold extract_vendors_from_discovery
      by_cases hc : s.contains_items
      · simp only [hc, Bool.not_true, Bool.false_eq_true, if_false]
        by_cases hv : (((if s.md_has_lazy_loading
              && !(if !env.vendor_class_items.isEmpty then env.vendor_class_items
                   else env.list_items).isEmpty
            then env.lazy_items
            else if !env.vendor_class_items.isEmpty then env.vendor_class_items
                 else env.list_items).take 500).filterMap vendor_info_of_item).isEmpty
        · left; simp only [hv, if_true]
        · right
          simp only [hv, if_false]
          exact le_trans (List.length_filterMap_le _ _) (List.length_take_le _ _)
      · simp [hc]
  · intro env s hc hl hlen hgood
    unfold extract_vendors_from_discovery
    have hne : env.vendor_class_items.isEmpty = false := by
      cases hemp : env.vendor_class_items with
      | nil => rw [hemp] at hlen; simp at hlen
      | cons a l => rfl
    have hitems : (if !env.vendor_class_items.isEmpty then env.vendor_class_items
        else env.list_items) = env.vendor_class_items := by
      simp [hne]
    have hlen500 : ((env.vendor_class_items.take 500).filterMap
        vendor_info_of_item).length = 500 := by
      rw [length_filterMap_of_isSome _ _
        (fun it hit => hgood it (List.take_subset 500 _ hit))]
      exact List.length_take_of_le hlen
    have hvne : ((env.vendor_class_items.take 500).filterMap
        vendor_info_of_item).isEmpty = false := by
      cases hh : (env.vendor_class_items.take 500).filterMap vendor_info_of_item with
      | nil => rw [hh] at hlen500; simp at hlen500
      | cons a l => rfl
    simp only [hc, hl, hitems, Bool.false_and, Bool.not_true, Bool.false_eq_true,
      if_false, hvne, hlen500]

/-- A vendor item with no heading candidate, empty text and no privacy
link: no name can be derived from it. -/
def c10_item_empty : VendorItem := {}

/-- A vendor item whose first heading candidate yields a valid name. -/
def c10_item_good : VendorItem := { name_candidate := some "Complete Vendor Ltd" }

/-- Vendors section with 600 enumerated items, all nameless; no YAML
fallback patterns yield anything. -/
def c10_env_600 : VendorExtractEnv :=
  { vendor_class_items := List.replicate 600 c10_item_empty, fallback := [] }

def c10_env_good : VendorExtractEnv :=
  { vendor_class_items := List.replicate 600 c10_item_good, fallback := [] }

/-- Content-having vendors section handed to the extractor. -/
def c10_sec : DiscoveredSection :=
  { section_type := .list, content_type := .vendors, locator := some "#vendors"
    activation_required := false, activation_locator := none
    discovery_method := .visual_pattern, confidence := mkRat 65 100
    contains_items := true, item_count_after_activation := 600 }

set_option maxRecDepth 8000 in
/-- C10 counterexample: a vendor section whose enumerated list contains
600 items does *not* always produce exactly 500 `VendorInfo` records:
when no item yields a valid name every item is skipped, and the
extractor falls back to the YAML path (here empty), producing 0
records. -/
theorem C10_counterexample :
    c10_env_600.vendor_class_items.length = 600
    ∧ ¬ ((extract_vendors_from_discovery c10_env_600 (some c10_sec)).length = 500) := by
  have hnil : ((c10_env_600.vendor_class_items.take 500).filterMap
      vendor_info_of_item) = [] := by
    apply List.filterMap_eq_nil_iff.mpr
    intro a ha
    rw [List.eq_of_mem_replicate (List.take_subset 500 _ ha)]
    decide
  have h0 : extract_vendors_from_discovery c10_env_600 (some c10_sec) = [] := by
    unfold extract_vendors_from_discovery
    simp only [List.isEmpty_iff, hnil, if_true, if_false]
    decide
  refine ⟨by decide, ?_⟩
  rw [h0]
  decide

set_option maxRecDepth 8000 in
theorem C10_vendor_cap_witness :
    (extract_vendors_from_discovery c10_env_good (some c10_sec)).length = 500 :=
  C10_vendor_cap.2 c10_env_good c10_sec rfl rfl
    (by rw [show c10_env_good.vendor_class_items
          = List.replicate 600 c10_item_good from rfl, List.length_replicate]
        omega)
    (fun it hit => by
      rw [List.eq_of_mem_replicate (show it ∈ List.replicate 600 c10_item_good from hit)]
      rfl)

end ConsentCrawl
